import Mathlib

/-!
Verification of the visibility and authorization model of the flaskr blog
application, shallowly embedded from `src/flaskr/blog.py`.

The relational store is modelled as in-memory lists of rows; each route
handler becomes a function from the database (and the request's viewer
identity `g.user`, modelled as an optional user id) to an outcome and the
resulting database.  `abort(404)` and `abort(403)` become error values, an
unhandled Python exception (subscripting `None`) becomes `typeError`, and a
flashed validation message with no mutation becomes `validationFailed`.
-/

deriving instance DecidableEq for Except

namespace Flaskr

/-- A row of the `user` table (`user(id, username, ...)`). -/
structure User where
  id : Nat
  username : String
  deriving DecidableEq

/-- A row of the `post` table (`post(id, title, body, visibility, created,
author_id)`).  The `visibility` column is `NULL` (the public sentinel,
here `none`) or the raw value inserted from the form. -/
structure Post where
  id : Nat
  title : String
  body : String
  visibility : Option String
  created : Nat
  author_id : Nat
  deriving DecidableEq

/-- A row of the `comment` table (`comment(id, title, body, created,
post_id)`).  A comment carries no author reference. -/
structure Comment where
  id : Nat
  title : String
  body : String
  created : Nat
  post_id : Nat
  deriving DecidableEq

/-- The database: the three tables, plus a counter used for store-assigned
ids and for the monotonic `created` timestamps. -/
structure DB where
  users : List User
  posts : List Post
  comments : List Comment
  nextId : Nat
  deriving DecidableEq

/-- Error outcomes of a request: `notFound` is `abort(404)`, `authz` is
`abort(403)` and also the login-required redirect for an absent viewer
(the spec's AuthorizationError covers both), `typeError` is an unhandled
Python `TypeError` (subscripting `None`). -/
inductive BlogError where
  | notFound
  | authz
  | typeError
  deriving DecidableEq

/-- Outcome of a mutating route: success (a redirect), a flashed
validation message with no mutation, or an error. -/
inductive Outcome where
  | ok
  | validationFailed
  | err (e : BlogError)
  deriving DecidableEq

/-- The numeric value of a decimal digit character, if it is one. -/
def digitVal (c : Char) : Option Nat :=
  if c.toNat ≥ 48 ∧ c.toNat ≤ 57 then some (c.toNat - 48) else none

/-- Reads a list of characters as a decimal numeral. -/
def natOfChars : List Char → Nat → Option Nat
  | [], acc => some acc
  | c :: cs, acc =>
    match digitVal c with
    | none => none
    | some d => natOfChars cs (acc * 10 + d)

/-- Reads a string as a decimal numeral (`none` if empty or non-numeric). -/
def strToNat (s : String) : Option Nat :=
  if s.data = [] then none else natOfChars s.data 0

/-- The SQL comparison `visibility = ?` between the stored column value and
an integer parameter (`g.user['id']`), under the storage engine's integer
column affinity (the store is an external collaborator per the spec): a
stored decimal numeral compares equal to the integer it denotes; `NULL`
compares equal to nothing; a non-numeric stored value compares equal to no
integer. -/
def sqlEqNat (v : Option String) (n : Nat) : Bool :=
  match v with
  | none => false
  | some s => strToNat s == some n

/-- A row of `post p JOIN user u ON p.author_id = u.id` projected to the
selected columns (the post's columns plus `username`). -/
structure PostRow where
  post : Post
  username : String
  deriving DecidableEq

/-- The join of one post with its author (`JOIN user u ON p.author_id =
u.id`); `none` when no user row matches. -/
def joinPostRow (users : List User) (p : Post) : Option PostRow :=
  (users.find? fun u => u.id == p.author_id).map fun u => ⟨p, u.username⟩

/-- `FROM post p JOIN user u ON p.author_id = u.id`. -/
def joinPosts (users : List User) (posts : List Post) : List PostRow :=
  posts.filterMap (joinPostRow users)

/-- The `WHERE` clause of the listing queries in `index` and `post`:
`visibility IS NULL` for an anonymous viewer, and
`visibility IS NULL OR visibility = ? OR author_id = ?` (both parameters
`g.user['id']`) for an authenticated viewer. -/
def visibleB (viewer : Option Nat) (p : Post) : Bool :=
  match viewer with
  | none => p.visibility == none
  | some v => p.visibility == none || sqlEqNat p.visibility v || p.author_id == v

/-- `ORDER BY created DESC` on joined post rows. -/
def byCreatedDesc (a b : PostRow) : Prop :=
  b.post.created ≤ a.post.created

instance : DecidableRel byCreatedDesc :=
  fun a b => Nat.decLe b.post.created a.post.created

/-- The `index` route (`GET /`): all posts joined with their author,
filtered by the viewer's visibility clause, ordered by creation time
descending. -/
def index (db : DB) (viewer : Option Nat) : List PostRow :=
  List.insertionSort byCreatedDesc
    ((joinPosts db.users db.posts).filter fun r => visibleB viewer r.post)

/-- The single-post `fetchone` of the `post` route: the visibility clause
plus `AND p.id = ?`, `ORDER BY created DESC`, first row if any. -/
def fetchPost (db : DB) (viewer : Option Nat) (id : Nat) : Option PostRow :=
  (List.insertionSort byCreatedDesc
    ((joinPosts db.users db.posts).filter fun r =>
      visibleB viewer r.post && r.post.id == id)).head?

/-- `get_post(id, check_author)`: fetch a post joined with its author by id
(no visibility filter); `abort(404)` if no row; if `check_author` and the
current user is not the author, `abort(403)`.  When `check_author` holds
and `g.user` is `None`, Python's `g.user['id']` raises `TypeError`. -/
def get_post (db : DB) (gUser : Option Nat) (id : Nat) (check_author : Bool) :
    Except BlogError PostRow :=
  match (joinPosts db.users db.posts).find? (fun r => r.post.id == id) with
  | none => .error .notFound
  | some row =>
    if check_author then
      match gUser with
      | none => .error .typeError
      | some v => if row.post.author_id == v then .ok row else .error .authz
    else .ok row

/-- A row of `comment c JOIN post p ON c.post_id = p.id JOIN user u ON
p.author_id = u.id` projected to the selected columns. -/
structure CommentRow where
  comment : Comment
  post : Post
  username : String
  deriving DecidableEq

/-- The join of one comment with its parent post and that post's author;
`none` when either join partner is missing. -/
def joinCommentRow (users : List User) (posts : List Post) (c : Comment) :
    Option CommentRow :=
  (posts.find? fun p => p.id == c.post_id).bind fun p =>
    (users.find? fun u => u.id == p.author_id).map fun u => ⟨c, p, u.username⟩

/-- `FROM comment c JOIN post p ON c.post_id = p.id JOIN user u ON
p.author_id = u.id`. -/
def joinComments (users : List User) (posts : List Post) (comments : List Comment) :
    List CommentRow :=
  comments.filterMap (joinCommentRow users posts)

/-- `get_comment(id, check_author)`: fetch a comment joined with its post
and that post's author; `abort(404)` if no joined row; if `check_author`
and the current user is not the post's author, `abort(403)`. -/
def get_comment (db : DB) (gUser : Option Nat) (id : Nat) (check_author : Bool) :
    Except BlogError CommentRow :=
  match (joinComments db.users db.posts db.comments).find? (fun r => r.comment.id == id) with
  | none => .error .notFound
  | some row =>
    if check_author then
      match gUser with
      | none => .error .typeError
      | some v => if row.post.author_id == v then .ok row else .error .authz
    else .ok row

/-- `maybeNone(s)`: the literal form value `"NULL"` becomes SQL `NULL`
(the public sentinel); anything else is passed through. -/
def maybeNone (s : String) : Option String :=
  if s = "NULL" then none else some s

/-- `INSERT INTO post (title, body, visibility, author_id) VALUES (?,?,?,?)`
with a store-assigned id and `created` timestamp. -/
def insertPost (db : DB) (title body : String) (vis : Option String) (authorId : Nat) : DB :=
  { db with
    posts := db.posts ++ [⟨db.nextId, title, body, vis, db.nextId, authorId⟩],
    nextId := db.nextId + 1 }

/-- `INSERT INTO comment (title, body, post_id) VALUES (?,?,?)` with a
store-assigned id and `created` timestamp. -/
def insertComment (db : DB) (title body : String) (postId : Nat) : DB :=
  { db with
    comments := db.comments ++ [⟨db.nextId, title, body, db.nextId, postId⟩],
    nextId := db.nextId + 1 }

/-- The POST branch of the `create` route.  `login_required` is modelled
from the spec (the decorator lives in `flaskr/auth.py`, not part of the
embedded module): an absent viewer receives AuthorizationError, surfaced
as a redirect to login.  The body is sanitized (`clean_html`, an external
collaborator passed in as `sanitize`); an empty title flashes a validation
error and writes nothing; otherwise a row is inserted with the normalized
visibility and `author_id = g.user['id']`. -/
def create (sanitize : String → String) (db : DB) (gUser : Option Nat)
    (title rawBody visibility : String) : Outcome × DB :=
  match gUser with
  | none => (.err .authz, db)
  | some uid =>
    let body := sanitize rawBody
    if title = "" then (.validationFailed, db)
    else (.ok, insertPost db title body (maybeNone visibility) uid)

/-- What the `post` route renders on GET: the joined post row and its
comments. -/
structure PostPage where
  row : PostRow
  comments : List Comment
  deriving DecidableEq

/-- `ORDER BY created DESC` on comment rows. -/
def commentCreatedDesc (a b : Comment) : Prop :=
  b.created ≤ a.created

instance : DecidableRel commentCreatedDesc :=
  fun a b => Nat.decLe b.created a.created

/-- `SELECT id, title, body, created, post_id FROM comment WHERE post_id = ?
ORDER BY created DESC`. -/
def listCommentsQuery (db : DB) (postId : Nat) : List Comment :=
  List.insertionSort commentCreatedDesc
    (db.comments.filter fun c => c.post_id == postId)

/-- The GET branch of the `post` route (`GET /post/<id>`): fetch the post
under the viewer's visibility filter; the code then evaluates
`post['id']` for the comment query without checking for `None`, so a
missing or non-viewable post raises `TypeError`; otherwise the page shows
the post and its comments. -/
def postRouteGet (db : DB) (viewer : Option Nat) (id : Nat) : Except BlogError PostPage :=
  match fetchPost db viewer id with
  | none => .error .typeError
  | some row => .ok ⟨row, listCommentsQuery db row.post.id⟩

/-- The POST branch of the `post` route (comment creation).  The post is
fetched under the viewer's visibility filter; every continuation
(the insert's `post['id']` argument, and the final redirect's
`post['id']`) subscripts the fetched row, so when it is `None` the
request raises `TypeError` and nothing is inserted.  An empty title
flashes a validation error and inserts nothing; otherwise a comment row
referencing the post is inserted. -/
def postRoutePost (db : DB) (viewer : Option Nat) (id : Nat) (title body : String) :
    Outcome × DB :=
  match fetchPost db viewer id with
  | none => (.err .typeError, db)
  | some row =>
    if title = "" then (.validationFailed, db)
    else (.ok, insertComment db title body row.post.id)

/-- The POST branch of the `update` route: `login_required` (modelled from
the spec as for `create`), then `get_post(id)` with the author check, then
title validation, then
`UPDATE post SET title = ?, body = ?, visibility = ? WHERE id = ?`
(the body is NOT sanitized here). -/
def update (db : DB) (gUser : Option Nat) (id : Nat) (title body visibility : String) :
    Outcome × DB :=
  match gUser with
  | none => (.err .authz, db)
  | some _ =>
    match get_post db gUser id true with
    | .error e => (.err e, db)
    | .ok _ =>
      if title = "" then (.validationFailed, db)
      else
        (.ok, { db with posts := db.posts.map fun p =>
          if p.id == id then
            { p with title := title, body := body, visibility := maybeNone visibility }
          else p })

/-- Modelled from the spec: the schema (not part of the embedded module)
declares `comment.post_id` with cascade deletion — "deletion cascades to
its comments" — so the store's `DELETE FROM post WHERE id = ?` also
removes the post's comment rows. -/
def deletePostRow (db : DB) (id : Nat) : DB :=
  { db with
    posts := db.posts.filter fun p => p.id != id,
    comments := db.comments.filter fun c => c.post_id != id }

/-- The `delete` route: `login_required`, then `get_post(id)` with the
author check, then the post row is deleted (comments cascade, see
`deletePostRow`). -/
def delete (db : DB) (gUser : Option Nat) (id : Nat) : Outcome × DB :=
  match gUser with
  | none => (.err .authz, db)
  | some _ =>
    match get_post db gUser id true with
    | .error e => (.err e, db)
    | .ok _ => (.ok, deletePostRow db id)

/-- The `deleteComment` route: `login_required`, then `get_comment(id)`
with the parent-post author check, then
`DELETE FROM comment WHERE id = ?`. -/
def deleteComment (db : DB) (gUser : Option Nat) (id : Nat) : Outcome × DB :=
  match gUser with
  | none => (.err .authz, db)
  | some _ =>
    match get_comment db gUser id true with
    | .error e => (.err e, db)
    | .ok _ => (.ok, { db with comments := db.comments.filter fun c => c.id != id })

/-! ### Helper facts about the embedded queries -/

instance : IsTotal PostRow byCreatedDesc :=
  ⟨fun a b => Nat.le_total b.post.created a.post.created⟩

instance : IsTrans PostRow byCreatedDesc :=
  ⟨fun _ _ _ h1 h2 => Nat.le_trans h2 h1⟩

instance : IsTotal Comment commentCreatedDesc :=
  ⟨fun a b => Nat.le_total b.created a.created⟩

instance : IsTrans Comment commentCreatedDesc :=
  ⟨fun _ _ _ h1 h2 => Nat.le_trans h2 h1⟩

lemma head?_mem {α : Type} {l : List α} {a : α} (h : l.head? = some a) : a ∈ l := by
  cases l with
  | nil => simp at h
  | cons x xs =>
    simp only [List.head?_cons, Option.some.injEq] at h
    simp [h]

lemma joinPostRow_post {users : List User} {p : Post} {r : PostRow}
    (h : joinPostRow users p = some r) : r.post = p := by
  unfold joinPostRow at h
  cases hf : users.find? fun u => u.id == p.author_id with
  | none => rw [hf] at h; simp at h
  | some u => rw [hf] at h; simp at h; rw [← h]

lemma joinCommentRow_comment {users : List User} {posts : List Post} {c : Comment}
    {r : CommentRow} (h : joinCommentRow users posts c = some r) : r.comment = c := by
  unfold joinCommentRow at h
  cases hf : posts.find? fun p => p.id == c.post_id with
  | none => rw [hf] at h; simp at h
  | some p =>
    rw [hf] at h
    cases hg : users.find? fun u => u.id == p.author_id with
    | none => simp [hg] at h
    | some u => simp [hg] at h; rw [← h]

lemma joinPosts_map_post (users : List User) (posts : List Post)
    (hfk : ∀ p ∈ posts, ∃ u ∈ users, u.id = p.author_id) :
    (joinPosts users posts).map PostRow.post = posts := by
  induction posts with
  | nil => rfl
  | cons p ps ih =>
    obtain ⟨u, hu, he⟩ := hfk p (List.mem_cons_self p ps)
    have hsome : (users.find? fun x => x.id == p.author_id).isSome := by
      rw [List.find?_isSome]
      exact ⟨u, hu, by simp [he]⟩
    obtain ⟨w, hw⟩ := Option.isSome_iff_exists.mp hsome
    have hrow : joinPostRow users p = some ⟨p, w.username⟩ := by
      simp [joinPostRow, hw]
    simp only [joinPosts, List.filterMap_cons, hrow, List.map_cons]
    exact congrArg (p :: ·) (ih fun q hq => hfk q (List.mem_cons_of_mem _ hq))

lemma joinPosts_find_some (users : List User) (posts : List Post) (P : Post) (row : PostRow)
    (hP : P ∈ posts) (hids : ∀ q ∈ posts, q.id = P.id → q = P)
    (hrow : joinPostRow users P = some row) :
    (joinPosts users posts).find? (fun r => r.post.id == P.id) = some row := by
  induction posts with
  | nil => cases hP
  | cons q qs ih =>
    by_cases hq : q = P
    · subst hq
      simp only [joinPosts, List.filterMap_cons, hrow]
      exact List.find?_cons_of_pos _ (by simp [joinPostRow_post hrow])
    · have hqid : q.id ≠ P.id := fun h => hq (hids q (List.mem_cons_self q qs) h)
      have hPqs : P ∈ qs := by
        rcases List.mem_cons.mp hP with h | h
        · exact absurd h.symm hq
        · exact h
      have ih' := ih hPqs fun c hc h => hids c (List.mem_cons_of_mem _ hc) h
      simp only [joinPosts, List.filterMap_cons]
      cases hjq : joinPostRow users q with
      | none => exact ih'
      | some r =>
        have hr : r.post = q := joinPostRow_post hjq
        rw [List.find?_cons_of_neg _ (by simp [hr, hqid])]
        exact ih'

lemma joinComments_find_some (users : List User) (posts : List Post)
    (comments : List Comment) (C : Comment) (row : CommentRow)
    (hC : C ∈ comments) (hcid : ∀ c ∈ comments, c.id = C.id → c = C)
    (hrow : joinCommentRow users posts C = some row) :
    (joinComments users posts comments).find? (fun r => r.comment.id == C.id) = some row := by
  induction comments with
  | nil => cases hC
  | cons q qs ih =>
    by_cases hq : q = C
    · subst hq
      simp only [joinComments, List.filterMap_cons, hrow]
      exact List.find?_cons_of_pos _ (by simp [joinCommentRow_comment hrow])
    · have hqid : q.id ≠ C.id := fun h => hq (hcid q (List.mem_cons_self q qs) h)
      have hCqs : C ∈ qs := by
        rcases List.mem_cons.mp hC with h | h
        · exact absurd h.symm hq
        · exact h
      have ih' := ih hCqs fun c hc h => hcid c (List.mem_cons_of_mem _ hc) h
      simp only [joinComments, List.filterMap_cons]
      cases hjq : joinCommentRow users posts q with
      | none => exact ih'
      | some r =>
        have hr : r.comment = q := joinCommentRow_comment hjq
        rw [List.find?_cons_of_neg _ (by simp [hr, hqid])]
        exact ih'

lemma joinComments_find_none (users : List User) (posts : List Post)
    (comments : List Comment) (C : Comment)
    (hcid : ∀ c ∈ comments, c.id = C.id → c = C)
    (hnone : joinCommentRow users posts C = none) :
    (joinComments users posts comments).find? (fun r => r.comment.id == C.id) = none := by
  rw [List.find?_eq_none]
  intro r hr hpred
  obtain ⟨c, hc, hcr⟩ := List.mem_filterMap.mp hr
  have hrc : r.comment = c := joinCommentRow_comment hcr
  have hcid' : c.id = C.id := by
    rw [← hrc]
    exact beq_iff_eq.mp hpred
  have : c = C := hcid c hc hcid'
  rw [this, hnone] at hcr
  cases hcr

/-! ### Concrete databases used for counterexamples and witnesses -/

/-- A two-user database: post 1 is authored by user 1 and restricted to
user 1 (`visibility = "1"`); post 2 is authored by user 2 and public;
comment 1 sits on post 1. -/
def exDb : DB :=
  { users := [⟨1, "alice"⟩, ⟨2, "bob"⟩],
    posts := [⟨1, "t1", "b1", some "1", 5, 1⟩, ⟨2, "t2", "b2", none, 7, 2⟩],
    comments := [⟨1, "c1", "cb1", 3, 1⟩],
    nextId := 10 }

/-- A database holding a comment whose `post_id` references no post. -/
def exDbDangling : DB :=
  { users := [⟨1, "alice"⟩],
    posts := [],
    comments := [⟨5, "c", "b", 1, 9⟩],
    nextId := 10 }

/-! ### Claims -/

/-- C1: For every viewer and every set of stored posts (whose authors
exist, per the data-model invariant), the post listing (`GET /`) returns
exactly the posts passing the viewer's visibility clause — only public
(`NULL`) posts for an absent viewer; public posts, posts whose visibility
equals the viewer's id, and the viewer's own posts for a present viewer —
ordered by creation time descending. -/
theorem C1_index_listing (db : DB) (viewer : Option Nat)
    (hfk : ∀ p ∈ db.posts, ∃ u ∈ db.users, u.id = p.author_id) :
    List.Perm ((index db viewer).map PostRow.post)
      (db.posts.filter fun p => visibleB viewer p) ∧
    (index db viewer).Pairwise fun a b => b.post.created ≤ a.post.created := by
  constructor
  · have h1 : List.Perm (index db viewer)
        ((joinPosts db.users db.posts).filter fun r => visibleB viewer r.post) :=
      List.perm_insertionSort _ _
    have h2 := h1.map PostRow.post
    have h3 : (((joinPosts db.users db.posts).filter fun r => visibleB viewer r.post).map
          PostRow.post)
        = ((joinPosts db.users db.posts).map PostRow.post).filter
            (fun p => visibleB viewer p) := by
      rw [List.filter_map]
      rfl
    rw [h3, joinPosts_map_post db.users db.posts hfk] at h2
    exact h2
  · exact List.sorted_insertionSort byCreatedDesc
      ((joinPosts db.users db.posts).filter fun r => visibleB viewer r.post)

/-- Witness for C1 on the concrete database `exDb` with viewer 1. -/
theorem C1_index_listing_witness :
    List.Perm ((index exDb (some 1)).map PostRow.post)
      (exDb.posts.filter fun p => visibleB (some 1) p) ∧
    (index exDb (some 1)).Pairwise fun a b => b.post.created ≤ a.post.created :=
  C1_index_listing exDb (some 1) (by decide)

lemma visibleB_false_of_restricted {P : Post} {u v : Nat}
    (hvis : sqlEqNat P.visibility u = true) (hvu : v ≠ u) (hva : v ≠ P.author_id) :
    visibleB (some v) P = false := by
  cases hps : P.visibility with
  | none => rw [hps] at hvis; simp [sqlEqNat] at hvis
  | some s =>
    rw [hps] at hvis
    have hsu : strToNat s = some u := by simpa [sqlEqNat] using hvis
    simp [visibleB, hps, sqlEqNat, hsu]
    exact ⟨fun h => hvu h.symm, fun h => hva h.symm⟩

/-- Counterexample to C2 as stated: in `exDb`, post 1 has visibility equal
to user 1's id and author 1; for viewer 2 (neither user 1 nor the author)
the mutation fetch `get_post` yields AuthorizationError (403), not
NotFoundError (404). -/
theorem C2_counterexample :
    ((⟨1, "t1", "b1", some "1", 5, 1⟩ : Post) ∈ exDb.posts) ∧
    sqlEqNat (some "1") 1 = true ∧
    (2 : Nat) ≠ 1 ∧
    get_post exDb (some 2) 1 true = .error .authz ∧
    get_post exDb (some 2) 1 true ≠ .error .notFound := by decide

/-- C2 (amended): For every post P whose visibility equals some user u's
id, and every viewer who is neither u nor P's author, that viewer never
sees P in the listing or in the single-post fetch, and a direct
fetch-by-id of P for mutation (`get_post` with the authorship
requirement) yields AuthorizationError (403) — not NotFoundError — for
that viewer. -/
theorem C2_restricted_post_hidden (db : DB) (u v : Nat) (P : Post) (w : User)
    (hP : P ∈ db.posts)
    (hvis : sqlEqNat P.visibility u = true)
    (hvu : v ≠ u) (hva : v ≠ P.author_id)
    (hids : ∀ q ∈ db.posts, q.id = P.id → q = P)
    (hw : db.users.find? (fun x => x.id == P.author_id) = some w) :
    (∀ r ∈ index db (some v), r.post ≠ P) ∧
    (∀ r, fetchPost db (some v) P.id = some r → r.post ≠ P) ∧
    get_post db (some v) P.id true = .error .authz := by
  have hfalse := visibleB_false_of_restricted hvis hvu hva
  refine ⟨?_, ?_, ?_⟩
  · intro r hr heq
    have hmem := (List.perm_insertionSort byCreatedDesc _).mem_iff.mp hr
    have hflt := (List.mem_filter.mp hmem).2
    rw [heq, hfalse] at hflt
    cases hflt
  · intro r hfp heq
    have hmem := head?_mem hfp
    have hmem2 := (List.perm_insertionSort byCreatedDesc _).mem_iff.mp hmem
    have hflt := (List.mem_filter.mp hmem2).2
    rw [Bool.and_eq_true] at hflt
    have hv := hflt.1
    rw [heq, hfalse] at hv
    cases hv
  · have hrow : joinPostRow db.users P = some ⟨P, w.username⟩ := by
      simp [joinPostRow, hw]
    have hfind := joinPosts_find_some db.users db.posts P ⟨P, w.username⟩ hP hids hrow
    unfold get_post
    rw [hfind]
    have hbeq : (P.author_id == v) = false := by
      simp
      exact fun h => hva h.symm
    simp [hbeq]

/-- Witness for C2 (amended) on `exDb`: viewer 2, restricted post 1. -/
theorem C2_restricted_post_hidden_witness :
    get_post exDb (some 2) 1 true = .error .authz :=
  (C2_restricted_post_hidden exDb 1 2 ⟨1, "t1", "b1", some "1", 5, 1⟩ ⟨1, "alice"⟩
    (by decide) (by decide) (by decide) (by decide) (by decide) (by decide)).2.2

/-- C3: For every comment C and every viewer, deleting C succeeds if and
only if the viewer is present and equals the author of C's parent post;
any other viewer (absent, or a different user — regardless of who created
the comment, comments carrying no author reference) receives
AuthorizationError, and the database is unchanged. -/
theorem C3_delete_comment_parent_author (db : DB) (viewer : Option Nat)
    (C : Comment) (P : Post) (w : User)
    (hC : C ∈ db.comments)
    (hcid : ∀ c ∈ db.comments, c.id = C.id → c = C)
    (hp : db.posts.find? (fun p => p.id == C.post_id) = some P)
    (hw : db.users.find? (fun x => x.id == P.author_id) = some w) :
    ((deleteComment db viewer C.id).1 = .ok ↔ viewer = some P.author_id) ∧
    (viewer ≠ some P.author_id → deleteComment db viewer C.id = (.err .authz, db)) ∧
    (viewer = some P.author_id →
      deleteComment db viewer C.id =
        (.ok, { db with comments := db.comments.filter fun c => c.id != C.id })) := by
  have hrow : joinCommentRow db.users db.posts C = some ⟨C, P, w.username⟩ := by
    simp [joinCommentRow, hp, hw]
  have hfind := joinComments_find_some db.users db.posts db.comments C
    ⟨C, P, w.username⟩ hC hcid hrow
  have hnone : deleteComment db none C.id = (.err .authz, db) := by
    simp [deleteComment]
  have hsome : ∀ v, deleteComment db (some v) C.id =
      if P.author_id == v
      then (.ok, { db with comments := db.comments.filter fun c => c.id != C.id })
      else (.err .authz, db) := by
    intro v
    unfold deleteComment get_comment
    rw [hfind]
    by_cases hbe : (P.author_id == v) = true
    · simp [hbe]
    · simp [hbe]
  have h2 : viewer ≠ some P.author_id → deleteComment db viewer C.id = (.err .authz, db) := by
    intro hne
    cases viewer with
    | none => exact hnone
    | some v =>
      have hbe : (P.author_id == v) = false := by
        simp
        intro h
        exact hne (by rw [h])
      rw [hsome v, hbe]
      simp
  have h3 : viewer = some P.author_id →
      deleteComment db viewer C.id =
        (.ok, { db with comments := db.comments.filter fun c => c.id != C.id }) := by
    intro he
    rw [he, hsome P.author_id, if_pos (by simp)]
  refine ⟨⟨?_, ?_⟩, h2, h3⟩
  · intro hok
    by_contra hne
    rw [h2 hne] at hok
    cases hok
  · intro he
    rw [h3 he]

/-- Witness for C3 on `exDb`: user 2 (not the parent post's author) cannot
delete comment 1, while author 1 can. -/
theorem C3_delete_comment_parent_author_witness :
    deleteComment exDb (some 2) 1 = (.err .authz, exDb) ∧
    deleteComment exDb (some 1) 1 =
      (.ok, { exDb with comments := exDb.comments.filter fun c => c.id != 1 }) :=
  ⟨(C3_delete_comment_parent_author exDb (some 2) ⟨1, "c1", "cb1", 3, 1⟩
      ⟨1, "t1", "b1", some "1", 5, 1⟩ ⟨1, "alice"⟩
      (by decide) (by decide) (by decide) (by decide)).2.1 (by decide),
   (C3_delete_comment_parent_author exDb (some 1) ⟨1, "c1", "cb1", 3, 1⟩
      ⟨1, "t1", "b1", some "1", 5, 1⟩ ⟨1, "alice"⟩
      (by decide) (by decide) (by decide) (by decide)).2.2 (by decide)⟩

/-- C4: For every post P, the update and delete operations succeed only
when the viewer is P's author; any other authenticated viewer, and an
unauthenticated attempt, receive AuthorizationError, and the database
(in particular the post) is left unchanged. -/
theorem C4_update_delete_require_author (db : DB) (viewer : Option Nat) (P : Post) (w : User)
    (title body visibility : String)
    (hP : P ∈ db.posts)
    (hids : ∀ q ∈ db.posts, q.id = P.id → q = P)
    (hw : db.users.find? (fun x => x.id == P.author_id) = some w) :
    ((update db viewer P.id title body visibility).1 = .ok → viewer = some P.author_id) ∧
    ((delete db viewer P.id).1 = .ok → viewer = some P.author_id) ∧
    (viewer ≠ some P.author_id →
      update db viewer P.id title body visibility = (.err .authz, db) ∧
      delete db viewer P.id = (.err .authz, db)) := by
  have hrow : joinPostRow db.users P = some ⟨P, w.username⟩ := by
    simp [joinPostRow, hw]
  have hfind := joinPosts_find_some db.users db.posts P ⟨P, w.username⟩ hP hids hrow
  have hgp : ∀ v, get_post db (some v) P.id true =
      if P.author_id == v then .ok ⟨P, w.username⟩ else .error .authz := by
    intro v
    unfold get_post
    rw [hfind]
    by_cases hbe : (P.author_id == v) = true
    · simp [hbe]
    · simp [hbe]
  have hne : viewer ≠ some P.author_id →
      update db viewer P.id title body visibility = (.err .authz, db) ∧
      delete db viewer P.id = (.err .authz, db) := by
    intro hv
    cases viewer with
    | none => exact ⟨by simp [update], by simp [delete]⟩
    | some v =>
      have hbe : (P.author_id == v) = false := by
        simp
        intro h
        exact hv (by rw [h])
      constructor
      · unfold update
        rw [hgp v, hbe]
        simp
      · unfold delete
        rw [hgp v, hbe]
        simp
  refine ⟨?_, ?_, hne⟩
  · intro hok
    by_contra hv
    rw [(hne hv).1] at hok
    cases hok
  · intro hok
    by_contra hv
    rw [(hne hv).2] at hok
    cases hok

/-- Witness for C4 on `exDb`: viewer 2 can neither update nor delete
post 1 (authored by user 1), and the database is unchanged. -/
theorem C4_update_delete_require_author_witness :
    update exDb (some 2) 1 "x" "y" "z" = (.err .authz, exDb) ∧
    delete exDb (some 2) 1 = (.err .authz, exDb) :=
  (C4_update_delete_require_author exDb (some 2) ⟨1, "t1", "b1", some "1", 5, 1⟩
    ⟨1, "alice"⟩ "x" "y" "z" (by decide) (by decide) (by decide)).2.2 (by decide)

/-- C5: For every authenticated viewer, creating a post with an empty
title produces a ValidationError and leaves the database (hence the post
table's row count) unchanged; with a non-empty title and the visibility
input equal to the literal string `"NULL"`, exactly one row is inserted
whose visibility is the public sentinel (`none`, not the literal string)
and whose `author_id` is the viewer's id; any other visibility input
value is stored as-is. -/
theorem C5_create_validation_sentinel (san : String → String) (db : DB) (v : Nat)
    (title rawBody visibility : String) (ht : title ≠ "") :
    create san db (some v) "" rawBody visibility = (.validationFailed, db) ∧
    create san db (some v) title rawBody "NULL" =
      (.ok, { db with
        posts := db.posts ++ [⟨db.nextId, title, san rawBody, none, db.nextId, v⟩],
        nextId := db.nextId + 1 }) ∧
    (visibility ≠ "NULL" →
      create san db (some v) title rawBody visibility =
        (.ok, { db with
          posts := db.posts ++ [⟨db.nextId, title, san rawBody, some visibility, db.nextId, v⟩],
          nextId := db.nextId + 1 })) := by
  refine ⟨by simp [create], ?_, ?_⟩
  · simp [create, ht, insertPost, maybeNone]
  · intro hv
    simp [create, ht, insertPost, maybeNone, hv]

/-- Witness for C5 on `exDb` with viewer 1 and identity sanitizer. -/
theorem C5_create_validation_sentinel_witness :
    create (fun s => s) exDb (some 1) "" "bb" "zz" = (.validationFailed, exDb) ∧
    create (fun s => s) exDb (some 1) "tt" "bb" "NULL" =
      (.ok, { exDb with
        posts := exDb.posts ++ [⟨exDb.nextId, "tt", (fun s : String => s) "bb", none, exDb.nextId, 1⟩],
        nextId := exDb.nextId + 1 }) :=
  ⟨(C5_create_validation_sentinel (fun s => s) exDb 1 "tt" "bb" "zz" (by decide)).1,
   (C5_create_validation_sentinel (fun s => s) exDb 1 "tt" "bb" "zz" (by decide)).2.1⟩

/-- C6, evaluated at failing inputs: a GET of the single-post view for an
id with no viewable post does NOT produce NotFoundError (404) — the route
never checks the fetched row for `None` and instead raises an unhandled
`TypeError` — both for a nonexistent id (3) and for a post restricted to
another user (1, viewed anonymously). -/
theorem C6_missing_post_crashes :
    postRouteGet exDb none 3 = .error .typeError ∧
    postRouteGet exDb none 3 ≠ .error .notFound ∧
    postRouteGet exDb none 1 = .error .typeError ∧
    postRouteGet exDb none 1 ≠ .error .notFound := by decide

/-- Counterexample to C7 as stated: post 1 exists in `exDb`, the title is
non-empty, yet the anonymous comment submission does not succeed and
inserts nothing — the flow fetches the post WITH the visibility filter,
gets no row, and raises `TypeError`. -/
theorem C7_counterexample :
    ((⟨1, "t1", "b1", some "1", 5, 1⟩ : Post) ∈ exDb.posts) ∧
    postRoutePost exDb none 1 "hello" "hb" = (.err .typeError, exDb) ∧
    (postRoutePost exDb none 1 "hello" "hb").1 ≠ .ok := by decide

/-- C7 (amended): For every viewer and post id, submitting a comment with
a non-empty title succeeds and inserts exactly one comment row referencing
the fetched post whenever the post is viewable under the viewer's
visibility filter (the flow fetches the post WITH that filter, though
without an authorship requirement); when no post is viewable under the
filter, the flow raises an unhandled TypeError and inserts nothing. -/
theorem C7_comment_insert_iff_viewable (db : DB) (viewer : Option Nat) (id : Nat)
    (title body : String) (ht : title ≠ "") :
    (∀ r, fetchPost db viewer id = some r →
      postRoutePost db viewer id title body =
        (.ok, { db with
          comments := db.comments ++ [⟨db.nextId, title, body, db.nextId, r.post.id⟩],
          nextId := db.nextId + 1 })) ∧
    (fetchPost db viewer id = none →
      postRoutePost db viewer id title body = (.err .typeError, db)) := by
  constructor
  · intro r hr
    simp [postRoutePost, hr, ht, insertComment]
  · intro hr
    simp [postRoutePost, hr]

/-- Witness for C7 (amended) on `exDb`: user 1 comments on their own
restricted post 1. -/
theorem C7_comment_insert_iff_viewable_witness :
    postRoutePost exDb (some 1) 1 "x" "y" =
      (.ok, { exDb with
        comments := exDb.comments ++ [⟨exDb.nextId, "x", "y", exDb.nextId, 1⟩],
        nextId := exDb.nextId + 1 }) :=
  (C7_comment_insert_iff_viewable exDb (some 1) 1 "x" "y" (by decide)).1
    ⟨⟨1, "t1", "b1", some "1", 5, 1⟩, "alice"⟩ (by decide)

/-- C8: After a successful post deletion, no comment row referencing the
deleted post remains retrievable via the comment listing query (the
storage cascade removes them). -/
theorem C8_delete_cascades_comments (db : DB) (P : Post) (w : User)
    (hP : P ∈ db.posts)
    (hids : ∀ q ∈ db.posts, q.id = P.id → q = P)
    (hw : db.users.find? (fun x => x.id == P.author_id) = some w) :
    (delete db (some P.author_id) P.id).1 = .ok ∧
    listCommentsQuery (delete db (some P.author_id) P.id).2 P.id = [] := by
  have hrow : joinPostRow db.users P = some ⟨P, w.username⟩ := by
    simp [joinPostRow, hw]
  have hfind := joinPosts_find_some db.users db.posts P ⟨P, w.username⟩ hP hids hrow
  have hdel : delete db (some P.author_id) P.id = (.ok, deletePostRow db P.id) := by
    unfold delete get_post
    rw [hfind]
    simp
  rw [hdel]
  refine ⟨rfl, ?_⟩
  have hnil : ((db.comments.filter fun c => c.post_id != P.id).filter
      fun c => c.post_id == P.id) = [] := by
    rw [List.filter_eq_nil_iff]
    intro c hc
    have h1 := (List.mem_filter.mp hc).2
    simp at h1 ⊢
    exact h1
  unfold listCommentsQuery deletePostRow
  rw [hnil]
  rfl

/-- Witness for C8 on `exDb`: author 1 deletes post 1; comment 1 (which
referenced it) is gone from the comment listing. -/
theorem C8_delete_cascades_comments_witness :
    (delete exDb (some 1) 1).1 = .ok ∧
    listCommentsQuery (delete exDb (some 1) 1).2 1 = [] :=
  C8_delete_cascades_comments exDb ⟨1, "t1", "b1", some "1", 5, 1⟩ ⟨1, "alice"⟩
    (by decide) (by decide) (by decide)

/-- C9: A successful create stores the sanitized body (`sanitize` applied
to the raw submitted body), while a successful update stores the raw
submitted body with no sanitization applied. -/
theorem C9_sanitize_create_not_update (san : String → String) (db : DB) (v : Nat)
    (P : Post) (w : User) (title rawBody visibility : String) (ht : title ≠ "")
    (hP : P ∈ db.posts)
    (hids : ∀ q ∈ db.posts, q.id = P.id → q = P)
    (hw : db.users.find? (fun x => x.id == P.author_id) = some w) :
    ((create san db (some v) title rawBody visibility).2.posts =
      db.posts ++ [⟨db.nextId, title, san rawBody, maybeNone visibility, db.nextId, v⟩]) ∧
    ((update db (some P.author_id) P.id title rawBody visibility).1 = .ok) ∧
    (∀ q ∈ (update db (some P.author_id) P.id title rawBody visibility).2.posts,
      q.id = P.id → q.body = rawBody) := by
  have hrow : joinPostRow db.users P = some ⟨P, w.username⟩ := by
    simp [joinPostRow, hw]
  have hfind := joinPosts_find_some db.users db.posts P ⟨P, w.username⟩ hP hids hrow
  have hupd : update db (some P.author_id) P.id title rawBody visibility =
      (.ok, { db with posts := db.posts.map fun p =>
        if p.id == P.id then
          { p with title := title, body := rawBody, visibility := maybeNone visibility }
        else p }) := by
    unfold update get_post
    rw [hfind]
    simp [ht]
  refine ⟨by simp [create, ht, insertPost], by rw [hupd], ?_⟩
  intro q hq hqid
  rw [hupd] at hq
  obtain ⟨p, hp, he⟩ := List.mem_map.mp hq
  by_cases hid : (p.id == P.id) = true
  · rw [if_pos hid] at he
    rw [← he]
  · rw [if_neg hid] at he
    rw [← he] at hqid
    exact absurd hqid (by simpa using hid)

/-- Witness for C9 on `exDb`: a create with sanitizer appending `"!"`
stores the sanitized body; an update by the author stores the raw body. -/
theorem C9_sanitize_create_not_update_witness :
    ((create (fun s => s ++ "!") exDb (some 1) "tt" "raw" "zz").2.posts =
      exDb.posts ++
        [⟨exDb.nextId, "tt", (fun s : String => s ++ "!") "raw", maybeNone "zz", exDb.nextId, 1⟩]) ∧
    ((update exDb (some 1) 1 "tt" "raw" "zz").1 = .ok) :=
  ⟨(C9_sanitize_create_not_update (fun s => s ++ "!") exDb 1 ⟨1, "t1", "b1", some "1", 5, 1⟩
      ⟨1, "alice"⟩ "tt" "raw" "zz" (by decide) (by decide) (by decide) (by decide)).1,
   (C9_sanitize_create_not_update (fun s => s ++ "!") exDb 1 ⟨1, "t1", "b1", some "1", 5, 1⟩
      ⟨1, "alice"⟩ "tt" "raw" "zz" (by decide) (by decide) (by decide) (by decide)).2.1⟩

/-- C10: `get_comment` (and therefore `deleteComment`) reports
NotFoundError when the comment row exists but its parent post — or that
post's author — no longer exists, because the lookup joins the comment to
its post and the post's author; the comment row itself is left
undeleted. -/
theorem C10_dangling_comment_not_found (db : DB) (gUser : Option Nat) (v : Nat)
    (C : Comment) (hC : C ∈ db.comments)
    (hcid : ∀ c ∈ db.comments, c.id = C.id → c = C)
    (hdang : db.posts.find? (fun p => p.id == C.post_id) = none ∨
      ∃ P, db.posts.find? (fun p => p.id == C.post_id) = some P ∧
           db.users.find? (fun x => x.id == P.author_id) = none) :
    get_comment db gUser C.id true = .error .notFound ∧
    deleteComment db (some v) C.id = (.err .notFound, db) ∧
    C ∈ (deleteComment db (some v) C.id).2.comments := by
  have hnone : joinCommentRow db.users db.posts C = none := by
    rcases hdang with h | ⟨P, hp, hu⟩
    · simp [joinCommentRow, h]
    · simp [joinCommentRow, hp, hu]
  have hfind := joinComments_find_none db.users db.posts db.comments C hcid hnone
  have hgc : ∀ g, get_comment db g C.id true = .error .notFound := by
    intro g
    unfold get_comment
    rw [hfind]
  have hdc : deleteComment db (some v) C.id = (.err .notFound, db) := by
    unfold deleteComment
    rw [hgc (some v)]
  refine ⟨hgc gUser, hdc, ?_⟩
  rw [hdc]
  exact hC

/-- Witness for C10 on `exDbDangling`: comment 5 references post 9, which
does not exist; fetch and delete report NotFoundError and the comment row
survives. -/
theorem C10_dangling_comment_not_found_witness :
    get_comment exDbDangling (some 1) 5 true = .error .notFound ∧
    deleteComment exDbDangling (some 1) 5 = (.err .notFound, exDbDangling) ∧
    (⟨5, "c", "b", 1, 9⟩ : Comment) ∈ (deleteComment exDbDangling (some 1) 5).2.comments :=
  C10_dangling_comment_not_found exDbDangling (some 1) 1 ⟨5, "c", "b", 1, 9⟩
    (by decide) (by decide) (Or.inl (by decide))

end Flaskr
